import Mathlib

/-!
Verification development for the blog-writer repository (src/blog_writer.py).

The file shallowly embeds the program's core: the module-level and per-run
ChatOpenAI clients, the three stage functions, the CrewAI orchestration
(`crewai_blog_post`), the LangChain orchestration (`langchain_blog_post`),
the result normalizer (`clean_crewai_output`) and the generate-button
handler of `main`. Language-model responses are abstracted as an oracle
from (client, prompt) to a response or an error; every attempted model
call is recorded in a trace. Behaviour of the third-party frameworks
(client construction, the CrewAI coordinator, the LangChain reasoning
loop) is not in the repository's files and is modelled from the spec;
each such definition says so in its doc comment.
-/

/-- A runtime Python value, as far as `clean_crewai_output` inspects one:
a `str`, a `dict` (association list of string keys to values), an `int`,
or any other object known only by its `str()` rendering. -/
inductive PyVal where
  | str (s : String)
  | dict (entries : List (String × PyVal))
  | int (n : Int)
  | obj (rendering : String)

mutual

/-- Python's `repr` of a value: strings quoted, dicts rendered with braces,
ints printed, other objects by their given rendering. -/
def pyRepr : PyVal → String
  | PyVal.str s => "'" ++ s ++ "'"
  | PyVal.dict es => "\x7b" ++ pyReprEntries es ++ "\x7d"
  | PyVal.int n => toString n
  | PyVal.obj r => r

/-- Comma-separated `'key': repr(value)` pieces of a dict rendering. -/
def pyReprEntries : List (String × PyVal) → String
  | [] => ""
  | [kv] => "'" ++ kv.1 ++ "': " ++ pyRepr kv.2
  | kv :: rest => "'" ++ kv.1 ++ "': " ++ pyRepr kv.2 ++ ", " ++ pyReprEntries rest

end

/-- Python's `str()` of a value: a string renders to itself, anything else
as its `repr` (for dicts and ints this is what `str` produces; an arbitrary
object carries its rendering). -/
def pythonStr : PyVal → String
  | PyVal.str s => s
  | v => pyRepr v

/-- Whether a Python value is a `str`. -/
def isPyStr : PyVal → Bool
  | PyVal.str _ => true
  | _ => false

/-- Coerce a Python value to the string Python code typed as `-> str`
would yield for it (identity on `str`, `str()` rendering otherwise). -/
def asPyStr : PyVal → String
  | PyVal.str s => s
  | v => pythonStr v

/-- The result normalizer (src/blog_writer.py lines 54-60):
`if isinstance(result, str): return result`;
`elif isinstance(result, dict): return result.get('raw', str(result))`;
`return str(result)`. Note that the dict branch returns the value stored
under `'raw'` unchanged, whatever its type. -/
def clean_crewai_output : PyVal → PyVal
  | PyVal.str s => PyVal.str s
  | PyVal.dict es =>
      match es.lookup "raw" with
      | some v => v
      | none => PyVal.str (pythonStr (PyVal.dict es))
  | v => PyVal.str (pythonStr v)

/-- A ChatOpenAI client as the program configures one: a sampling
temperature and a model name. -/
structure ChatOpenAI where
  temperature : ℚ
  model : String
deriving Repr, DecidableEq

/-- The module-level default client created at import time
(src/blog_writer.py line 15): `ChatOpenAI(temperature=0.8, model="gpt-4")`. -/
def llm : ChatOpenAI := ⟨(0.8 : ℚ), "gpt-4"⟩

/-- The program's error taxonomy (spec section 7). -/
inductive BlogError where
  | configurationError (msg : String)
  | modelError (msg : String)
  | toolError (msg : String)
  | parseError (msg : String)
deriving Repr, DecidableEq

/-- One attempted language-model call: which client was used and with
what prompt text. -/
structure ModelCall where
  client : ChatOpenAI
  prompt : String
deriving Repr, DecidableEq

/-- The language-model backend, abstracted: a response or a model-side
error for each (client, prompt) pair. -/
def LLMOracle : Type := ChatOpenAI → String → Except BlogError String

/-- Modelled from the spec: ChatOpenAI client construction consults the
credential source (`OPENAI_API_KEY`); "absence is a fatal configuration
error surfaced before any generation request can run". Construction makes
no model call. -/
def mkChatOpenAI (apiKey : Option String) (temperature : ℚ) (model : String) :
    Except BlogError ChatOpenAI :=
  match apiKey with
  | none => Except.error (BlogError.configurationError "OPENAI_API_KEY is not set")
  | some _ => Except.ok ⟨temperature, model⟩

/-- `get_llm` (src/blog_writer.py lines 17-19): create a new ChatOpenAI
instance with the specified parameters. The credential is the ambient
key the process read at start. -/
def get_llm (apiKey : Option String) (temperature : ℚ) (model_name : String) :
    Except BlogError ChatOpenAI :=
  mkChatOpenAI apiKey temperature model_name

/-- `generate_outline` (src/blog_writer.py lines 21-28): render the outline
prompt template and send it to the model; the trace records the one
attempted call. -/
def generate_outline (oracle : LLMOracle) (topic audience : String) (llm : ChatOpenAI) :
    Except BlogError String × List ModelCall :=
  let p := "Create detailed outline for blog post about '" ++ topic ++
    "' for audience '" ++ audience ++
    "'. Include:\n- Main sections\n- Sub-sections\n- Key points\n- Suggested call-to-action"
  (oracle llm p, [⟨llm, p⟩])

/-- `generate_blog_post` (src/blog_writer.py lines 30-43): render the blog
prompt template and send it to the model. -/
def generate_blog_post (oracle : LLMOracle) (topic audience tone : String)
    (word_count : Int) (keywords : String) (llm : ChatOpenAI) :
    Except BlogError String × List ModelCall :=
  let p := "Write comprehensive blog post about " ++ topic ++ " for " ++ audience ++
    " (" ++ tone ++ " tone, " ++ toString word_count ++ " words). Keywords: " ++ keywords
  (oracle llm p, [⟨llm, p⟩])

/-- `seo_optimizer` (src/blog_writer.py lines 45-52): render the SEO prompt
template and send it to the model. -/
def seo_optimizer (oracle : LLMOracle) (text keywords : String) (llm : ChatOpenAI) :
    Except BlogError String × List ModelCall :=
  let p := "Improve SEO for this content using keywords " ++ keywords ++ ":\n\n" ++ text
  (oracle llm p, [⟨llm, p⟩])

/-- A CrewAI agent as constructed by `crewai_blog_post`: role, goal,
backstory, bound ChatOpenAI client, verbosity. -/
structure Agent where
  role : String
  goal : String
  backstory : String
  llm : ChatOpenAI
  verbose : Bool
deriving Repr, DecidableEq

/-- A CrewAI task: description, assigned agent, expected-output
description, and the task's context (dependency) tasks. The Python code
passes references to previously constructed Task objects; references are
modelled as indices into the crew's task list, which holds the same
objects in the same construction order. (The source calls this class
Task; that name is taken in Lean.) -/
structure CrewTask where
  description : String
  agent : Agent
  expected_output : String
  context : List Nat
deriving Repr, DecidableEq

/-- A CrewAI crew (src/blog_writer.py lines 112-116). -/
structure Crew where
  agents : List Agent
  tasks : List CrewTask
  verbose : Bool
deriving Repr, DecidableEq

/-- One completed task execution in a crew run: the executing agent's
role, the task description, the effective input the task ran with, and the
text it produced. Entries are listed in execution order. -/
structure TraceEntry where
  agentRole : String
  description : String
  input : String
  output : String
deriving Repr, DecidableEq

/-- Modelled from the spec: a task's dependency outputs are "concatenated
as context before execution". -/
def contextBlock : List String → String
  | [] => ""
  | [o] => "\n\nContext:\n" ++ o
  | o :: os => "\n\nContext:\n" ++ o ++ contextBlock os

/-- Modelled from the spec: "A Task's effective input includes the textual
output of all its dependencies, concatenated as context before
execution". `outs` holds the outputs of the already-completed tasks, in
task-list order. -/
def taskInput (t : CrewTask) (outs : List String) : String :=
  t.description ++ contextBlock (t.context.filterMap (fun i => outs.get? i))

/-- Modelled from the spec: the prompt a CrewAI agent sends to its bound
client when executing a task is its role/goal/backstory preamble followed
by the task's effective input. -/
def agentExecPrompt (a : Agent) (input : String) : String :=
  "You are " ++ a.role ++ ". " ++ a.goal ++ ". " ++ a.backstory ++ ".\n" ++ input

/-- Outcome of a crew run: on success the raw text of the terminal task
plus the execution trace and model-call list; on failure the error plus
the trace of the tasks that completed before the failing one and the
calls attempted up to and including the failing one. -/
inductive CrewResult where
  | ok (raw : String) (trace : List TraceEntry) (calls : List ModelCall)
  | failed (err : BlogError) (trace : List TraceEntry) (calls : List ModelCall)
deriving Repr, DecidableEq

/-- Modelled from the spec: the CrewAI coordinator "executes them in
dependency order, passing each completed task's textual output forward as
context to every task that depends on it"; "any task failing aborts the
run; no partial-result recovery". Tasks are processed in list order (the
list is constructed in dependency order); each execution is one model
call through the task's agent; the first failure aborts the run. -/
def kickoffGo (oracle : LLMOracle) :
    List CrewTask → List String → List TraceEntry → List ModelCall → CrewResult
  | [], outs, tr, cs => CrewResult.ok (outs.getLast?.getD "") tr cs
  | t :: ts, outs, tr, cs =>
      let inp := taskInput t outs
      let p := agentExecPrompt t.agent inp
      let cs' := cs ++ [⟨t.agent.llm, p⟩]
      match oracle t.agent.llm p with
      | Except.error e => CrewResult.failed e tr cs'
      | Except.ok out =>
          kickoffGo oracle ts (outs ++ [out]) (tr ++ [⟨t.agent.role, t.description, inp, out⟩]) cs'

/-- Modelled from the spec: `crew.kickoff()` runs the crew's task list and
returns the terminal task's output as the run's artifact. -/
def Crew.kickoff (oracle : LLMOracle) (crew : Crew) : CrewResult :=
  kickoffGo oracle crew.tasks [] [] []

/-- The Content Strategist agent (src/blog_writer.py lines 65-71). -/
def outline_agent (llm : ChatOpenAI) : Agent :=
  ⟨"Content Strategist", "Create compelling content outlines",
    "Expert in structuring engaging content for various audiences", llm, true⟩

/-- The Content Writer agent (src/blog_writer.py lines 73-79). -/
def writer_agent (llm : ChatOpenAI) : Agent :=
  ⟨"Content Writer", "Write high-quality blog posts",
    "Skilled writer with expertise in various industries and tones", llm, true⟩

/-- The SEO Specialist agent (src/blog_writer.py lines 81-87). -/
def seo_agent (llm : ChatOpenAI) : Agent :=
  ⟨"SEO Specialist", "Optimize content for search engines",
    "SEO expert with deep knowledge of keyword optimization", llm, true⟩

/-- The outline task's description f-string (src/blog_writer.py line 91). -/
def outlineTaskDescription (topic audience : String) : String :=
  "Create an outline for a blog post about " ++ topic ++ " targeting " ++ audience

/-- The writing task's description f-string (src/blog_writer.py lines 97-98),
a triple-quoted literal with its embedded newline and indentation. -/
def writingTaskDescription (topic audience tone : String) (word_count : Int)
    (keywords : String) : String :=
  "Write a " ++ toString word_count ++ "-word blog post about " ++ topic ++
    " for " ++ audience ++ " \n        with a " ++ tone ++
    " tone. Keywords to include: " ++ keywords

/-- The SEO task's description f-string (src/blog_writer.py line 105). -/
def seoTaskDescription (keywords : String) : String :=
  "Optimize the blog post for SEO using keywords: " ++ keywords

/-- The outline task (src/blog_writer.py lines 90-94): no context tasks. -/
def outline_task (topic audience : String) (llm : ChatOpenAI) : CrewTask :=
  ⟨outlineTaskDescription topic audience, outline_agent llm,
    "Detailed content outline with main sections, sub-sections, and key points", []⟩

/-- The writing task (src/blog_writer.py lines 96-102): context is the
outline task (index 0 of the crew's task list). -/
def writing_task (topic audience tone : String) (word_count : Int)
    (keywords : String) (llm : ChatOpenAI) : CrewTask :=
  ⟨writingTaskDescription topic audience tone word_count keywords, writer_agent llm,
    "Well-written blog post with proper structure and engaging content", [0]⟩

/-- The SEO task (src/blog_writer.py lines 104-109): context is the
writing task (index 1 of the crew's task list). -/
def seo_task (keywords : String) (llm : ChatOpenAI) : CrewTask :=
  ⟨seoTaskDescription keywords, seo_agent llm,
    "SEO-optimized version of the blog post with improved keyword usage", [1]⟩

/-- The crew `crewai_blog_post` assembles (src/blog_writer.py lines 65-116):
three agents and three tasks, in construction order. -/
def crewaiCrew (topic audience tone : String) (word_count : Int)
    (keywords : String) (llm : ChatOpenAI) : Crew :=
  ⟨[outline_agent llm, writer_agent llm, seo_agent llm],
   [outline_task topic audience llm,
    writing_task topic audience tone word_count keywords llm,
    seo_task keywords llm],
   true⟩

/-- `crewai_blog_post` (src/blog_writer.py lines 62-119): build the crew,
kick it off, and pass the result object (rendered by its raw text, as
CrewAI's result `str()`s to) through `clean_crewai_output`. -/
def crewai_blog_post (oracle : LLMOracle) (topic audience tone : String)
    (word_count : Int) (keywords : String) (llm : ChatOpenAI) :
    Except BlogError String × List ModelCall :=
  match Crew.kickoff oracle (crewaiCrew topic audience tone word_count keywords llm) with
  | CrewResult.ok raw _ cs => (Except.ok (asPyStr (clean_crewai_output (PyVal.obj raw))), cs)
  | CrewResult.failed e _ cs => (Except.error e, cs)

/-- Whether a key-value payload's keys exactly cover a parameter list:
no extra key outside `params`, and no `params` entry missing from the
payload. This is Python's keyword-argument matching for functions without
defaults, as hit by `f(**json.loads(x), llm=llm)`. -/
def keysMatch (params : List String) (payload : List (String × PyVal)) : Bool :=
  payload.all (fun kv => params.contains kv.1) &&
    params.all (fun p => (payload.map Prod.fst).contains p)

/-- Python keyword-argument binding for a stage function: a payload with
an unexpected or a missing key raises a TypeError, which surfaces as a
tool-invocation error for that one call. -/
def bindKwargs (params : List String) (payload : List (String × PyVal)) :
    Except BlogError (List (String × PyVal)) :=
  if !payload.all (fun kv => params.contains kv.1) then
    Except.error (BlogError.toolError "TypeError: unexpected keyword argument")
  else if !params.all (fun p => (payload.map Prod.fst).contains p) then
    Except.error (BlogError.toolError "TypeError: missing required argument")
  else Except.ok payload

/-- The string a payload value reaches the prompt template as: Python's
`str.format` renders a non-string value with `str()`. -/
def pyArgStr (payload : List (String × PyVal)) (k : String) : String :=
  asPyStr ((payload.lookup k).getD (PyVal.str ""))

/-- The integer a payload's `word_count` value is taken as. The Python
code would interpolate any JSON value into the template; the integer case
is the stage function's declared contract, and non-integers default to 0
here. -/
def pyArgInt (payload : List (String × PyVal)) (k : String) : Int :=
  match payload.lookup k with
  | some (PyVal.int n) => n
  | _ => 0

/-- A LangChain tool: name, wrapped function, and the natural-language
description of the expected input shape. The reasoning loop's JSON action
input is modelled as the already-parsed key-value record. -/
structure Tool where
  name : String
  func : List (String × PyVal) → Except BlogError String × List ModelCall
  description : String

/-- The OutlineGenerator tool (src/blog_writer.py lines 124-128): binds
the payload to `generate_outline`'s keyword parameters, with `llm` bound
by the enclosing closure. -/
def outlineGeneratorTool (oracle : LLMOracle) (llm : ChatOpenAI) : Tool :=
  ⟨"OutlineGenerator",
   fun payload =>
     match bindKwargs ["topic", "audience"] payload with
     | Except.error e => (Except.error e, [])
     | Except.ok kv =>
         generate_outline oracle (pyArgStr kv "topic") (pyArgStr kv "audience") llm,
   "Creates content outlines. Input should be JSON with 'topic' and 'audience' keys"⟩

/-- The BlogWriter tool (src/blog_writer.py lines 129-133). -/
def blogWriterTool (oracle : LLMOracle) (llm : ChatOpenAI) : Tool :=
  ⟨"BlogWriter",
   fun payload =>
     match bindKwargs ["topic", "audience", "tone", "word_count", "keywords"] payload with
     | Except.error e => (Except.error e, [])
     | Except.ok kv =>
         generate_blog_post oracle (pyArgStr kv "topic") (pyArgStr kv "audience")
           (pyArgStr kv "tone") (pyArgInt kv "word_count") (pyArgStr kv "keywords") llm,
   "Writes blog posts. Input should be JSON with 'topic', 'audience', 'tone', 'word_count', 'keywords'"⟩

/-- The SEOOptimizer tool (src/blog_writer.py lines 134-138). -/
def seoOptimizerTool (oracle : LLMOracle) (llm : ChatOpenAI) : Tool :=
  ⟨"SEOOptimizer",
   fun payload =>
     match bindKwargs ["text", "keywords"] payload with
     | Except.error e => (Except.error e, [])
     | Except.ok kv =>
         seo_optimizer oracle (pyArgStr kv "text") (pyArgStr kv "keywords") llm,
   "Optimizes content. Input should be JSON with 'text' and 'keywords'"⟩

/-- The tools list built by `langchain_blog_post` (src/blog_writer.py
lines 123-139). -/
def langchainTools (oracle : LLMOracle) (llm : ChatOpenAI) : List Tool :=
  [outlineGeneratorTool oracle llm, blogWriterTool oracle llm, seoOptimizerTool oracle llm]

/-- Modelled from the spec: the ReAct instruction template the code pulls
from the prompt hub (`hub.pull("hwchase17/react")`); its exact text is
external to the repository. -/
def reactHubPrompt : String :=
  "Answer the following question as best you can using the available tools."

/-- A ReAct agent (src/blog_writer.py line 142): the reasoning client,
the tools and the pulled instruction template. -/
structure ReactAgent where
  llm : ChatOpenAI
  tools : List Tool
  prompt : String

/-- `create_react_agent(llm, tools, prompt)`. -/
def create_react_agent (llm : ChatOpenAI) (tools : List Tool) (prompt : String) :
    ReactAgent :=
  ⟨llm, tools, prompt⟩

/-- Modelled from the spec: the reasoning engine's own iteration budget
("the loop is bounded by the underlying reasoning engine's own
iteration/stop policy"); the framework default, not set by this program. -/
def defaultMaxIterations : Nat := 15

/-- The AgentExecutor configuration (src/blog_writer.py lines 143-148):
agent, tools, `verbose=False`, `handle_parsing_errors=True`, and the
engine's iteration budget, which the program leaves at the framework
default. -/
structure AgentExecutor where
  agent : ReactAgent
  tools : List Tool
  verbose : Bool
  handle_parsing_errors : Bool
  max_iterations : Nat := defaultMaxIterations

/-- What one reasoning turn of the loop resolved to, as parsed from the
reasoning model's text: a tool invocation with its structured argument
payload, a declared final answer, or malformed output the output parser
cannot read. -/
inductive AgentStep where
  | act (toolName : String) (payload : List (String × PyVal))
  | finish (answer : String)
  | malformed (text : String)

/-- What the loop records after a turn: a tool's result (or the error that
failed that single call), or the parsing-error notice fed back to the
model when a malformed turn is tolerated. -/
inductive Observation where
  | toolResult (toolName : String) (result : Except BlogError String)
  | parseNote (text : String)
deriving Repr

/-- Render an error for use inside an observation message. -/
def errorText : BlogError → String
  | BlogError.configurationError m => "ConfigurationError: " ++ m
  | BlogError.modelError m => "ModelError: " ++ m
  | BlogError.toolError m => "ToolInvocationError: " ++ m
  | BlogError.parseError m => "OutputParserError: " ++ m

/-- Render one observation as the text appended to the reasoning
scratchpad. -/
def renderObservation : Observation → String
  | Observation.toolResult _ (Except.ok s) => "\nObservation: " ++ s
  | Observation.toolResult _ (Except.error e) => "\nObservation: " ++ errorText e
  | Observation.parseNote t => "\nObservation: Invalid or incomplete response: " ++ t

/-- The scratchpad text of a list of observations, in order. -/
def renderObservations (obs : List Observation) : String :=
  String.join (obs.map renderObservation)

/-- Accumulated loop state: the observations so far and every model call
attempted so far. -/
structure LoopState where
  obs : List Observation
  calls : List ModelCall
deriving Repr

/-- The prompt of one reasoning turn: instruction template, the task
input, and the scratchpad so far. -/
def reasoningPrompt (ex : AgentExecutor) (input : String) (obs : List Observation) :
    String :=
  ex.agent.prompt ++ "\n" ++ input ++ renderObservations obs

/-- The loop's answer when the engine's iteration budget runs out (its
own stop policy, not a limit this program adds). -/
def iterationLimitMessage : String :=
  "Agent stopped due to iteration limit or time limit."

/-- Modelled from the spec: the AgentExecutor reasoning/acting loop. Each
turn costs one reasoning model call and consumes the next parsed step. A
tool invocation whose payload fails keyword binding "fails that single
tool call, not the whole run": its error becomes an observation and the
loop continues, as does an unknown tool name. A malformed reasoning turn
is tolerated (recorded and continued past) exactly when
`handle_parsing_errors` is set; otherwise it aborts the run. A model-side
(transport) error from inside a tool propagates unmodified and aborts the
run. The loop stops with the engine's own message when its iteration
budget or its step stream runs out. -/
def runLoop (ex : AgentExecutor) (input : String) :
    Nat → List AgentStep → LoopState → Except BlogError String × LoopState
  | 0, _, st => (Except.ok iterationLimitMessage, st)
  | Nat.succ _, [], st => (Except.ok iterationLimitMessage, st)
  | Nat.succ n, step :: rest, st =>
      let st1 : LoopState :=
        ⟨st.obs, st.calls ++ [⟨ex.agent.llm, reasoningPrompt ex input st.obs⟩]⟩
      match step with
      | AgentStep.finish a => (Except.ok a, st1)
      | AgentStep.malformed t =>
          if ex.handle_parsing_errors then
            runLoop ex input n rest ⟨st1.obs ++ [Observation.parseNote t], st1.calls⟩
          else
            (Except.error (BlogError.parseError t), st1)
      | AgentStep.act name payload =>
          match ex.tools.find? (fun tl => tl.name == name) with
          | none =>
              runLoop ex input n rest
                ⟨st1.obs ++ [Observation.toolResult name
                    (Except.error (BlogError.toolError (name ++ " is not a valid tool")))],
                 st1.calls⟩
          | some tl =>
              match tl.func payload with
              | (Except.ok out, cs) =>
                  runLoop ex input n rest
                    ⟨st1.obs ++ [Observation.toolResult name (Except.ok out)],
                     st1.calls ++ cs⟩
              | (Except.error (BlogError.toolError m), cs) =>
                  runLoop ex input n rest
                    ⟨st1.obs ++ [Observation.toolResult name
                        (Except.error (BlogError.toolError m))],
                     st1.calls ++ cs⟩
              | (Except.error e, cs) => (Except.error e, ⟨st1.obs, st1.calls ++ cs⟩)

/-- What `agent_executor.invoke({"input": ...})` returns on success: the
input echoed back and the loop's final answer under the `output` key. -/
structure InvokeResult where
  input : String
  output : String
deriving Repr, DecidableEq

/-- Modelled from the spec: `AgentExecutor.invoke` runs the loop from an
empty scratchpad under the engine's iteration budget and wraps the final
answer as the result record's `output` field. -/
def AgentExecutor.invoke (ex : AgentExecutor) (steps : List AgentStep)
    (input : String) : Except BlogError InvokeResult × List ModelCall :=
  match runLoop ex input ex.max_iterations steps ⟨[], []⟩ with
  | (Except.ok out, st) => (Except.ok ⟨input, out⟩, st.calls)
  | (Except.error e, st) => (Except.error e, st.calls)

/-- The instruction f-string handed to the loop (src/blog_writer.py lines
151-155), a triple-quoted literal with its embedded newlines and
indentation. -/
def langchainInput (topic audience tone : String) (word_count : Int)
    (keywords : String) : String :=
  "Write a blog post about " ++ topic ++ " for " ++ audience ++ " with " ++ tone ++
    " tone, \n        " ++ toString word_count ++ " words, using keywords: " ++ keywords ++
    ". Follow this process:\n        1. First create an outline using OutlineGenerator" ++
    "\n        2. Then write the full post using BlogWriter" ++
    "\n        3. Finally optimize for SEO using SEOOptimizer"

/-- The executor `langchain_blog_post` builds (src/blog_writer.py lines
143-148): `verbose=False`, `handle_parsing_errors=True`, no iteration
limit of its own (framework default). -/
def langchainExecutor (oracle : LLMOracle) (llm : ChatOpenAI) : AgentExecutor :=
  { agent := create_react_agent llm (langchainTools oracle llm) reactHubPrompt,
    tools := langchainTools oracle llm,
    verbose := false,
    handle_parsing_errors := true }

/-- `langchain_blog_post` (src/blog_writer.py lines 121-157): build the
tools and the executor, invoke it on the three-step instruction, and
return the result record's `output` field. `steps` is the parsed step
stream the reasoning model produces during the run. -/
def langchain_blog_post (oracle : LLMOracle) (steps : List AgentStep)
    (topic audience tone : String) (word_count : Int) (keywords : String)
    (llm : ChatOpenAI) : Except BlogError String × List ModelCall :=
  match (langchainExecutor oracle llm).invoke steps
      (langchainInput topic audience tone word_count keywords) with
  | (Except.ok result, cs) => (Except.ok result.output, cs)
  | (Except.error e, cs) => (Except.error e, cs)

/-- The UI's strategy selector (src/blog_writer.py lines 176-180). -/
inductive Framework where
  | LangChain
  | CrewAI
deriving Repr, DecidableEq

/-- The generate-button handler of `main` (src/blog_writer.py lines
187-196): construct a fresh client from the user-selected temperature and
model name via `get_llm`, then run the selected orchestrator with that
client. A configuration error from client construction aborts before any
model call. -/
def main_generate (apiKey : Option String) (oracle : LLMOracle)
    (framework : Framework) (steps : List AgentStep) (model_name : String)
    (temperature : ℚ) (topic audience tone : String) (word_count : Int)
    (keywords : String) : Except BlogError String × List ModelCall :=
  match get_llm apiKey temperature model_name with
  | Except.error e => (Except.error e, [])
  | Except.ok current_llm =>
      match framework with
      | Framework.LangChain =>
          langchain_blog_post oracle steps topic audience tone word_count keywords current_llm
      | Framework.CrewAI =>
          crewai_blog_post oracle topic audience tone word_count keywords current_llm

/-- The trace component of a crew run's outcome. -/
def CrewResult.traceOf : CrewResult → List TraceEntry
  | CrewResult.ok _ tr _ => tr
  | CrewResult.failed _ tr _ => tr

/-- The model-call component of a crew run's outcome. -/
def CrewResult.callList : CrewResult → List ModelCall
  | CrewResult.ok _ _ cs => cs
  | CrewResult.failed _ _ cs => cs

/-- The raw final text of a crew run's outcome (empty on failure). -/
def CrewResult.rawText : CrewResult → String
  | CrewResult.ok raw _ _ => raw
  | CrewResult.failed _ _ _ => ""

/-- The result record of a successful invoke (a placeholder on error). -/
def okInvoke : Except BlogError InvokeResult → InvokeResult
  | Except.ok r => r
  | Except.error _ => ⟨"", ""⟩

/-- The full prompt the outline task's execution sends (first task, no
completed outputs yet). -/
def outlineExecPrompt (topic audience : String) (c : ChatOpenAI) : String :=
  agentExecPrompt (outline_agent c) (taskInput (outline_task topic audience c) [])

/-- The full prompt the writing task's execution sends, given the outline
task's output `o1`. -/
def writingExecPrompt (topic audience tone : String) (word_count : Int)
    (keywords : String) (o1 : String) (c : ChatOpenAI) : String :=
  agentExecPrompt (writer_agent c)
    (taskInput (writing_task topic audience tone word_count keywords c) [o1])

/-- The full prompt the SEO task's execution sends, given the outline and
writing outputs `o1`, `o2`. -/
def seoExecPrompt (keywords : String) (o1 o2 : String) (c : ChatOpenAI) : String :=
  agentExecPrompt (seo_agent c) (taskInput (seo_task keywords c) [o1, o2])

/-- A concrete client used to exercise the theorems on closed inputs. -/
def clientW : ChatOpenAI := ⟨(1 : ℚ)/2, "gpt-3.5-turbo"⟩

/-- A backend that answers every call with the text "out". -/
def oracleOk : LLMOracle := fun _ _ => Except.ok "out"

/-- A backend on which every call fails with a model-side error. -/
def oracleFailAll : LLMOracle :=
  fun _ _ => Except.error (BlogError.modelError "model unavailable")

/-- A backend that fails exactly the calls issued by the agent with the
given role (whose prompts start with that agent's preamble) and answers
"out" elsewhere. -/
def oracleFailRole (role : String) : LLMOracle :=
  fun _ p =>
    if ("You are " ++ role).data.isPrefixOf p.data then
      Except.error (BlogError.modelError "model unavailable")
    else Except.ok "out"

/-- C3: ResultNormalizer is the identity on plain-string input: for every
string value, applying `clean_crewai_output` returns that exact string
unchanged. -/
theorem clean_crewai_output_identity_on_str :
    ∀ s : String, clean_crewai_output (PyVal.str s) = PyVal.str s :=
  fun _ => rfl

/-- C4, counterexample: the claim's closing assertion "the normalizer
always returns a string" is false. On the structured record
`{'raw': 42}`, whose `'raw'` field holds a non-text value,
`clean_crewai_output` returns that value itself (the int 42), which is
not a string and is not the string rendering of the whole record. -/
theorem clean_crewai_output_not_always_str :
    clean_crewai_output (PyVal.dict [("raw", PyVal.int 42)]) = PyVal.int 42 ∧
    isPyStr (clean_crewai_output (PyVal.dict [("raw", PyVal.int 42)])) = false ∧
    clean_crewai_output (PyVal.dict [("raw", PyVal.int 42)]) ≠
      PyVal.str (pythonStr (PyVal.dict [("raw", PyVal.int 42)])) :=
  ⟨rfl, rfl, fun h => PyVal.noConfusion h⟩

/-- C4 (amended): for every structured record containing a `'raw'` field,
`clean_crewai_output` returns exactly that field's value, ignoring all
other metadata — unchanged, whatever its type, so the result is a string
exactly when the field holds text; for a record with no `'raw'` field it
returns the string rendering of the whole record; for a string it returns
it unchanged; and for any other value it returns its string rendering.
Thus the normalizer returns a string on every input except a record whose
`'raw'` field holds a non-string value. -/
theorem clean_crewai_output_raw_extraction :
    (∀ (es : List (String × PyVal)) (v : PyVal),
      es.lookup "raw" = some v → clean_crewai_output (PyVal.dict es) = v) ∧
    (∀ es : List (String × PyVal),
      es.lookup "raw" = none →
        clean_crewai_output (PyVal.dict es) = PyVal.str (pythonStr (PyVal.dict es))) ∧
    (∀ s : String, clean_crewai_output (PyVal.str s) = PyVal.str s) ∧
    (∀ n : Int, clean_crewai_output (PyVal.int n) = PyVal.str (pythonStr (PyVal.int n))) ∧
    (∀ r : String, clean_crewai_output (PyVal.obj r) = PyVal.str (pythonStr (PyVal.obj r))) := by
  refine ⟨?_, ?_, fun _ => rfl, fun _ => rfl, fun _ => rfl⟩
  · intro es v h
    simp [clean_crewai_output, h]
  · intro es h
    simp [clean_crewai_output, h]

/-- C4, witness: the amended theorem applied to a record with a textual
`'raw'` field plus metadata, and to a record with no `'raw'` field. -/
theorem clean_crewai_output_raw_extraction_witness :
    clean_crewai_output (PyVal.dict [("raw", PyVal.str "body"), ("tokens", PyVal.int 7)]) =
      PyVal.str "body" ∧
    clean_crewai_output (PyVal.dict [("status", PyVal.str "ok")]) =
      PyVal.str (pythonStr (PyVal.dict [("status", PyVal.str "ok")])) :=
  ⟨clean_crewai_output_raw_extraction.1 _ _ rfl,
   clean_crewai_output_raw_extraction.2.1 _ rfl⟩

/-- C8: within a single CrewOrchestrator run, the crew holds exactly the
three agents (strategist, writer, SEO specialist), every one of them — and
every task's assigned agent — bound to the same ChatOpenAI client, i.e.
one ModelConfig (model name and temperature) shared across the run. -/
theorem crew_agents_share_one_model_config :
    ∀ (topic audience tone : String) (word_count : Int) (keywords : String)
      (c : ChatOpenAI),
      (crewaiCrew topic audience tone word_count keywords c).agents.map Agent.role =
          ["Content Strategist", "Content Writer", "SEO Specialist"] ∧
      (crewaiCrew topic audience tone word_count keywords c).agents.map Agent.llm =
          [c, c, c] ∧
      (crewaiCrew topic audience tone word_count keywords c).tasks.map
          (fun t => t.agent.llm) = [c, c, c] := by
  intro topic audience tone word_count keywords c
  exact ⟨rfl, rfl, rfl⟩

/-- C1: when the credential source supplies no API key, every generation
attempt through the button handler — with either strategy — fails with a
ConfigurationError and its model-call trace is empty: no model call is
attempted. -/
theorem missing_api_key_fails_before_any_model_call :
    ∀ (oracle : LLMOracle) (framework : Framework) (steps : List AgentStep)
      (model_name : String) (temperature : ℚ) (topic audience tone : String)
      (word_count : Int) (keywords : String),
      main_generate none oracle framework steps model_name temperature
          topic audience tone word_count keywords =
        (Except.error (BlogError.configurationError "OPENAI_API_KEY is not set"), []) :=
  fun _ _ _ _ _ _ _ _ _ _ => rfl

/-- C5: on every completed CrewOrchestrator run, the execution trace (in
temporal order) is exactly outline, then writing, then SEO: the writing
task runs only after the outline task produced its output, the SEO task
only after the writing task did, and each task's effective input is its
description followed by the textual output of its dependency task. -/
theorem crew_tasks_execute_in_dependency_order :
    ∀ (oracle : LLMOracle) (topic audience tone : String) (word_count : Int)
      (keywords : String) (c : ChatOpenAI) (raw : String) (tr : List TraceEntry)
      (cs : List ModelCall),
      Crew.kickoff oracle (crewaiCrew topic audience tone word_count keywords c) =
        CrewResult.ok raw tr cs →
      ∃ o1 o2 o3,
        tr = [⟨"Content Strategist", outlineTaskDescription topic audience,
                outlineTaskDescription topic audience, o1⟩,
              ⟨"Content Writer", writingTaskDescription topic audience tone word_count keywords,
                writingTaskDescription topic audience tone word_count keywords ++
                  "\n\nContext:\n" ++ o1, o2⟩,
              ⟨"SEO Specialist", seoTaskDescription keywords,
                seoTaskDescription keywords ++ "\n\nContext:\n" ++ o2, o3⟩] := by
  intro oracle topic audience tone word_count keywords c raw tr cs h
  simp only [Crew.kickoff, crewaiCrew, kickoffGo] at h
  split at h
  · exact CrewResult.noConfusion h
  · next o1 h1 =>
    split at h
    · exact CrewResult.noConfusion h
    · next o2 h2 =>
      split at h
      · exact CrewResult.noConfusion h
      · next o3 h3 =>
        refine ⟨o1, o2, o3, ?_⟩
        injection h with hraw htr hcs
        subst htr
        simp [outline_task, writing_task, seo_task, outline_agent, writer_agent,
          seo_agent, taskInput, contextBlock, String.append_assoc, String.append_empty]

/-- C5, witness: the order theorem applied to a concrete completed run
(constant backend answering "out"). -/
theorem crew_tasks_execute_in_dependency_order_witness :
    ∃ o1 o2 o3,
      CrewResult.traceOf (Crew.kickoff oracleOk (crewaiCrew "t" "a" "tn" 500 "kw" clientW)) =
        [⟨"Content Strategist", outlineTaskDescription "t" "a",
            outlineTaskDescription "t" "a", o1⟩,
         ⟨"Content Writer", writingTaskDescription "t" "a" "tn" 500 "kw",
            writingTaskDescription "t" "a" "tn" 500 "kw" ++ "\n\nContext:\n" ++ o1, o2⟩,
         ⟨"SEO Specialist", seoTaskDescription "kw",
            seoTaskDescription "kw" ++ "\n\nContext:\n" ++ o2, o3⟩] :=
  crew_tasks_execute_in_dependency_order oracleOk "t" "a" "tn" 500 "kw" clientW
    (CrewResult.rawText (Crew.kickoff oracleOk (crewaiCrew "t" "a" "tn" 500 "kw" clientW)))
    (CrewResult.traceOf (Crew.kickoff oracleOk (crewaiCrew "t" "a" "tn" 500 "kw" clientW)))
    (CrewResult.callList (Crew.kickoff oracleOk (crewaiCrew "t" "a" "tn" 500 "kw" clientW)))
    rfl

/-- C6: any task failure aborts the whole CrewOrchestrator run with no
partial result. If the outline task fails, the run ends immediately: the
trace is empty (the writing and SEO tasks never execute) and the only
attempted model call is the outline one. If the writing task fails, only
the outline appears in the trace and the SEO task never executes; if the
SEO task fails, the run still returns a failure, never a partial output. -/
theorem crew_task_failure_aborts_run :
    ∀ (oracle : LLMOracle) (topic audience tone : String) (word_count : Int)
      (keywords : String) (c : ChatOpenAI) (e : BlogError),
      (oracle c (outlineExecPrompt topic audience c) = Except.error e →
        Crew.kickoff oracle (crewaiCrew topic audience tone word_count keywords c) =
          CrewResult.failed e [] [⟨c, outlineExecPrompt topic audience c⟩]) ∧
      (∀ o1, oracle c (outlineExecPrompt topic audience c) = Except.ok o1 →
        oracle c (writingExecPrompt topic audience tone word_count keywords o1 c) =
          Except.error e →
        Crew.kickoff oracle (crewaiCrew topic audience tone word_count keywords c) =
          CrewResult.failed e
            [⟨"Content Strategist", outlineTaskDescription topic audience,
               taskInput (outline_task topic audience c) [], o1⟩]
            [⟨c, outlineExecPrompt topic audience c⟩,
             ⟨c, writingExecPrompt topic audience tone word_count keywords o1 c⟩]) ∧
      (∀ o1 o2, oracle c (outlineExecPrompt topic audience c) = Except.ok o1 →
        oracle c (writingExecPrompt topic audience tone word_count keywords o1 c) =
          Except.ok o2 →
        oracle c (seoExecPrompt keywords o1 o2 c) = Except.error e →
        Crew.kickoff oracle (crewaiCrew topic audience tone word_count keywords c) =
          CrewResult.failed e
            [⟨"Content Strategist", outlineTaskDescription topic audience,
               taskInput (outline_task topic audience c) [], o1⟩,
             ⟨"Content Writer", writingTaskDescription topic audience tone word_count keywords,
               taskInput (writing_task topic audience tone word_count keywords c) [o1], o2⟩]
            [⟨c, outlineExecPrompt topic audience c⟩,
             ⟨c, writingExecPrompt topic audience tone word_count keywords o1 c⟩,
             ⟨c, seoExecPrompt keywords o1 o2 c⟩]) := by
  intro oracle topic audience tone word_count keywords c e
  refine ⟨?_, ?_, ?_⟩
  · intro h1
    simp only [outlineExecPrompt, outline_task, outline_agent] at h1
    simp [Crew.kickoff, crewaiCrew, kickoffGo, outlineExecPrompt,
      outline_task, outline_agent, h1]
  · intro o1 h1 h2
    simp only [outlineExecPrompt, outline_task, outline_agent] at h1
    simp only [writingExecPrompt, writing_task, writer_agent] at h2
    simp [Crew.kickoff, crewaiCrew, kickoffGo, outlineExecPrompt, writingExecPrompt,
      outline_task, outline_agent, writing_task, writer_agent, h1, h2]
  · intro o1 o2 h1 h2 h3
    simp only [outlineExecPrompt, outline_task, outline_agent] at h1
    simp only [writingExecPrompt, writing_task, writer_agent] at h2
    simp only [seoExecPrompt, seo_task, seo_agent] at h3
    simp [Crew.kickoff, crewaiCrew, kickoffGo, outlineExecPrompt, writingExecPrompt,
      seoExecPrompt, outline_task, outline_agent, writing_task, writer_agent,
      seo_task, seo_agent, h1, h2, h3]

set_option maxRecDepth 8192 in
/-- C6, witness: the abort theorem applied to three concrete backends,
failing the outline task, the writing task and the SEO task in turn. -/
theorem crew_task_failure_aborts_run_witness :
    Crew.kickoff oracleFailAll (crewaiCrew "t" "a" "tn" 500 "kw" clientW) =
      CrewResult.failed (BlogError.modelError "model unavailable") []
        [⟨clientW, outlineExecPrompt "t" "a" clientW⟩] ∧
    Crew.kickoff (oracleFailRole "Content Writer")
        (crewaiCrew "t" "a" "tn" 500 "kw" clientW) =
      CrewResult.failed (BlogError.modelError "model unavailable")
        [⟨"Content Strategist", outlineTaskDescription "t" "a",
           taskInput (outline_task "t" "a" clientW) [], "out"⟩]
        [⟨clientW, outlineExecPrompt "t" "a" clientW⟩,
         ⟨clientW, writingExecPrompt "t" "a" "tn" 500 "kw" "out" clientW⟩] ∧
    Crew.kickoff (oracleFailRole "SEO Specialist")
        (crewaiCrew "t" "a" "tn" 500 "kw" clientW) =
      CrewResult.failed (BlogError.modelError "model unavailable")
        [⟨"Content Strategist", outlineTaskDescription "t" "a",
           taskInput (outline_task "t" "a" clientW) [], "out"⟩,
         ⟨"Content Writer", writingTaskDescription "t" "a" "tn" 500 "kw",
           taskInput (writing_task "t" "a" "tn" 500 "kw" clientW) ["out"], "out"⟩]
        [⟨clientW, outlineExecPrompt "t" "a" clientW⟩,
         ⟨clientW, writingExecPrompt "t" "a" "tn" 500 "kw" "out" clientW⟩,
         ⟨clientW, seoExecPrompt "kw" "out" "out" clientW⟩] :=
  ⟨(crew_task_failure_aborts_run oracleFailAll "t" "a" "tn" 500 "kw" clientW
      (BlogError.modelError "model unavailable")).1 rfl,
   (crew_task_failure_aborts_run (oracleFailRole "Content Writer") "t" "a" "tn" 500 "kw"
      clientW (BlogError.modelError "model unavailable")).2.1 "out" (by rfl) rfl,
   (crew_task_failure_aborts_run (oracleFailRole "SEO Specialist") "t" "a" "tn" 500 "kw"
      clientW (BlogError.modelError "model unavailable")).2.2 "out" "out"
      (by rfl) (by rfl) (by rfl)⟩

/-- C2: a capability invocation whose key-value payload has keys missing
from or extra to the stage function's declared parameter names fails only
that single tool call: each of the three tools returns a tool-invocation
error (with an empty model-call list, the stage function never reached),
and the loop, on such a failing call, records the error as an observation
and continues with the remaining steps instead of aborting the run. -/
theorem malformed_payload_fails_single_tool_call_only :
    ∀ (oracle : LLMOracle) (c : ChatOpenAI) (payload : List (String × PyVal)),
      (keysMatch ["topic", "audience"] payload = false →
        ∃ m, (outlineGeneratorTool oracle c).func payload =
          (Except.error (BlogError.toolError m), [])) ∧
      (keysMatch ["topic", "audience", "tone", "word_count", "keywords"] payload = false →
        ∃ m, (blogWriterTool oracle c).func payload =
          (Except.error (BlogError.toolError m), [])) ∧
      (keysMatch ["text", "keywords"] payload = false →
        ∃ m, (seoOptimizerTool oracle c).func payload =
          (Except.error (BlogError.toolError m), [])) ∧
      (∀ (ex : AgentExecutor) (input : String) (n : Nat) (rest : List AgentStep)
         (name : String) (tl : Tool) (m : String) (cs : List ModelCall)
         (st : LoopState),
        ex.tools.find? (fun t => t.name == name) = some tl →
        tl.func payload = (Except.error (BlogError.toolError m), cs) →
        runLoop ex input (n + 1) (AgentStep.act name payload :: rest) st =
          runLoop ex input n rest
            ⟨st.obs ++ [Observation.toolResult name (Except.error (BlogError.toolError m))],
             (st.calls ++ [⟨ex.agent.llm, reasoningPrompt ex input st.obs⟩]) ++ cs⟩) := by
  intro oracle c payload
  refine ⟨?_, ?_, ?_, ?_⟩
  · intro h
    cases hA : payload.all (fun kv => (["topic", "audience"] : List String).contains kv.1) with
    | false =>
        refine ⟨"TypeError: unexpected keyword argument", ?_⟩
        simp only [outlineGeneratorTool, bindKwargs, hA]
        simp
    | true =>
        simp only [keysMatch, hA, Bool.true_and] at h
        refine ⟨"TypeError: missing required argument", ?_⟩
        simp only [outlineGeneratorTool, bindKwargs, hA, h]
        simp
  · intro h
    cases hA : payload.all (fun kv =>
        (["topic", "audience", "tone", "word_count", "keywords"] : List String).contains kv.1) with
    | false =>
        refine ⟨"TypeError: unexpected keyword argument", ?_⟩
        simp only [blogWriterTool, bindKwargs, hA]
        simp
    | true =>
        simp only [keysMatch, hA, Bool.true_and] at h
        refine ⟨"TypeError: missing required argument", ?_⟩
        simp only [blogWriterTool, bindKwargs, hA, h]
        simp
  · intro h
    cases hA : payload.all (fun kv => (["text", "keywords"] : List String).contains kv.1) with
    | false =>
        refine ⟨"TypeError: unexpected keyword argument", ?_⟩
        simp only [seoOptimizerTool, bindKwargs, hA]
        simp
    | true =>
        simp only [keysMatch, hA, Bool.true_and] at h
        refine ⟨"TypeError: missing required argument", ?_⟩
        simp only [seoOptimizerTool, bindKwargs, hA, h]
        simp
  · intro ex input n rest name tl m cs st hfind hfunc
    simp only [runLoop]
    rw [hfind]
    dsimp only
    rw [hfunc]

/-- C7: the LinearOrchestrator tolerates malformed intermediate reasoning
output: a run whose reasoning stream is malformed exactly once and then
declares an answer still returns that final textual answer (the executor
is built with `handle_parsing_errors=True`). -/
theorem langchain_recovers_from_single_malformed_step :
    ∀ (oracle : LLMOracle) (topic audience tone : String) (word_count : Int)
      (keywords : String) (c : ChatOpenAI) (t a : String),
      (langchain_blog_post oracle [AgentStep.malformed t, AgentStep.finish a]
          topic audience tone word_count keywords c).1 = Except.ok a := by
  intro oracle topic audience tone word_count keywords c t a
  rfl

/-- C9: the LinearOrchestrator's executor keeps the reasoning engine's own
iteration budget (no additional step limit is imposed); its return value
is exactly the `output` field of the loop's result; and a turn that
declares a final answer ends the loop with exactly that text. -/
theorem langchain_returns_loop_final_answer :
    ∀ (oracle : LLMOracle) (c : ChatOpenAI),
      (langchainExecutor oracle c).max_iterations = defaultMaxIterations ∧
      (∀ (steps : List AgentStep) (topic audience tone : String) (word_count : Int)
         (keywords : String) (r : InvokeResult) (cs : List ModelCall),
        (langchainExecutor oracle c).invoke steps
            (langchainInput topic audience tone word_count keywords) = (Except.ok r, cs) →
        langchain_blog_post oracle steps topic audience tone word_count keywords c =
          (Except.ok r.output, cs)) ∧
      (∀ (ex : AgentExecutor) (input : String) (n : Nat) (a : String)
         (rest : List AgentStep) (st : LoopState),
        runLoop ex input (n + 1) (AgentStep.finish a :: rest) st =
          (Except.ok a, ⟨st.obs, st.calls ++ [⟨ex.agent.llm, reasoningPrompt ex input st.obs⟩]⟩)) := by
  intro oracle c
  refine ⟨rfl, ?_, ?_⟩
  · intro steps topic audience tone word_count keywords r cs h
    simp only [langchain_blog_post, h]
  · intro ex input n a rest st
    rfl


/-- C2, witness: the theorem applied to a payload missing the audience
key (outline tool), an empty payload (writer tool), a payload with an
extra key (SEO tool), and one concrete loop step that fails and is then
skipped past. -/
theorem malformed_payload_fails_single_tool_call_only_witness :
    (∃ m, (outlineGeneratorTool oracleOk clientW).func [("topic", PyVal.str "T")] =
       (Except.error (BlogError.toolError m), [])) ∧
    (∃ m, (blogWriterTool oracleOk clientW).func [] =
       (Except.error (BlogError.toolError m), [])) ∧
    (∃ m, (seoOptimizerTool oracleOk clientW).func
        [("text", PyVal.str "x"), ("keywords", PyVal.str "k"), ("extra", PyVal.int 1)] =
       (Except.error (BlogError.toolError m), [])) ∧
    runLoop (langchainExecutor oracleOk clientW) "input" 6
        [AgentStep.act "OutlineGenerator" [("topic", PyVal.str "T")]] ⟨[], []⟩ =
      runLoop (langchainExecutor oracleOk clientW) "input" 5 []
        ⟨[] ++ [Observation.toolResult "OutlineGenerator"
            (Except.error (BlogError.toolError "TypeError: missing required argument"))],
         ([] ++ [⟨(langchainExecutor oracleOk clientW).agent.llm,
            reasoningPrompt (langchainExecutor oracleOk clientW) "input" []⟩]) ++ []⟩ :=
  ⟨(malformed_payload_fails_single_tool_call_only oracleOk clientW
      [("topic", PyVal.str "T")]).1 (by rfl),
   (malformed_payload_fails_single_tool_call_only oracleOk clientW []).2.1 (by rfl),
   (malformed_payload_fails_single_tool_call_only oracleOk clientW
      [("text", PyVal.str "x"), ("keywords", PyVal.str "k"), ("extra", PyVal.int 1)]).2.2.1
      (by rfl),
   (malformed_payload_fails_single_tool_call_only oracleOk clientW
      [("topic", PyVal.str "T")]).2.2.2 (langchainExecutor oracleOk clientW) "input" 5 []
      "OutlineGenerator" (outlineGeneratorTool oracleOk clientW)
      "TypeError: missing required argument" [] ⟨[], []⟩ (by rfl) (by rfl)⟩

/-- C9, witness: the theorem applied to a concrete run whose single step
declares the answer "done". -/
theorem langchain_returns_loop_final_answer_witness :
    (langchain_blog_post oracleOk [AgentStep.finish "done"] "t" "a" "tn" 500 "kw"
      clientW).1 = Except.ok "done" := by
  have h := (langchain_returns_loop_final_answer oracleOk clientW).2.1
    [AgentStep.finish "done"] "t" "a" "tn" 500 "kw"
    (okInvoke ((langchainExecutor oracleOk clientW).invoke [AgentStep.finish "done"]
      (langchainInput "t" "a" "tn" 500 "kw")).1)
    ((langchainExecutor oracleOk clientW).invoke [AgentStep.finish "done"]
      (langchainInput "t" "a" "tn" 500 "kw")).2 (by rfl)
  rw [h]
  rfl

/-- Every model call a tool of `langchain_blog_post` attempts uses the
client the orchestrator closed over. -/
lemma langchainTools_calls_client (oracle : LLMOracle) (c : ChatOpenAI) :
    ∀ tl ∈ langchainTools oracle c, ∀ payload, ∀ mc ∈ (tl.func payload).2,
      mc.client = c := by
  intro tl htl payload mc
  simp only [langchainTools, List.mem_cons, List.not_mem_nil, or_false] at htl
  rcases htl with h | h | h
  · subst h
    simp only [outlineGeneratorTool, generate_outline]
    rcases hb : bindKwargs ["topic", "audience"] payload with e | kv <;>
      simp [hb]
    intro h'
    simp [h']
  · subst h
    simp only [blogWriterTool, generate_blog_post]
    rcases hb : bindKwargs ["topic", "audience", "tone", "word_count", "keywords"]
        payload with e | kv <;> simp [hb]
    intro h'
    simp [h']
  · subst h
    simp only [seoOptimizerTool, seo_optimizer]
    rcases hb : bindKwargs ["text", "keywords"] payload with e | kv <;> simp [hb]
    intro h'
    simp [h']

/-- Every model call the reasoning loop attempts (reasoning turns and tool
calls alike) uses the run's client, provided the executor's agent and all
its tools are bound to it. -/
lemma runLoop_calls_client (c : ChatOpenAI) (ex : AgentExecutor) (input : String)
    (hag : ex.agent.llm = c)
    (htools : ∀ tl ∈ ex.tools, ∀ payload, ∀ mc ∈ (tl.func payload).2, mc.client = c) :
    ∀ (fuel : Nat) (steps : List AgentStep) (st : LoopState),
      (∀ mc ∈ st.calls, mc.client = c) →
      ∀ mc ∈ (runLoop ex input fuel steps st).2.calls, mc.client = c := by
  intro fuel
  induction fuel with
  | zero =>
      intro steps st hst mc hmc
      simp only [runLoop] at hmc
      exact hst mc hmc
  | succ n ih =>
      intro steps st hst mc hmc
      cases steps with
      | nil =>
          simp only [runLoop] at hmc
          exact hst mc hmc
      | cons step rest =>
          have hst1 : ∀ mc ∈ st.calls ++
              [⟨ex.agent.llm, reasoningPrompt ex input st.obs⟩], mc.client = c := by
            intro mc' hmc'
            rcases List.mem_append.mp hmc' with h | h
            · exact hst mc' h
            · simp only [List.mem_singleton] at h
              subst h
              exact hag
          cases step with
          | finish a =>
              simp only [runLoop] at hmc
              exact hst1 mc hmc
          | malformed t =>
              simp only [runLoop] at hmc
              cases hhp : ex.handle_parsing_errors with
              | true =>
                  rw [hhp] at hmc
                  simp only [if_true] at hmc
                  exact ih rest _ hst1 mc hmc
              | false =>
                  rw [hhp] at hmc
                  simp only [Bool.false_eq_true, if_false] at hmc
                  exact hst1 mc hmc
          | act name payload =>
              simp only [runLoop] at hmc
              cases hf : ex.tools.find? (fun tl => tl.name == name) with
              | none =>
                  rw [hf] at hmc
                  exact ih rest _ hst1 mc hmc
              | some tl =>
                  rw [hf] at hmc
                  dsimp only at hmc
                  have htl := List.mem_of_find?_eq_some hf
                  rcases hfp : tl.func payload with ⟨res, cs⟩
                  have hcs : ∀ mc' ∈ cs, mc'.client = c := by
                    intro mc' h'
                    exact htools tl htl payload mc' (by rw [hfp]; exact h')
                  have happ : ∀ mc' ∈ (st.calls ++
                      [⟨ex.agent.llm, reasoningPrompt ex input st.obs⟩]) ++ cs,
                      mc'.client = c := by
                    intro mc' h'
                    rcases List.mem_append.mp h' with h'' | h''
                    · exact hst1 mc' h''
                    · exact hcs mc' h''
                  rw [hfp] at hmc
                  rcases res with e | out
                  · rcases e with m | m | m | m
                    · exact happ mc hmc
                    · exact happ mc hmc
                    · exact ih rest _ happ mc hmc
                    · exact happ mc hmc
                  · exact ih rest _ happ mc hmc

/-- Every model call a crew run attempts uses the run's client, provided
every task's agent is bound to it. -/
lemma kickoffGo_calls_client (oracle : LLMOracle) (c : ChatOpenAI) :
    ∀ (tasks : List CrewTask) (outs : List String) (tr : List TraceEntry)
      (cs : List ModelCall),
      (∀ t ∈ tasks, t.agent.llm = c) → (∀ mc ∈ cs, mc.client = c) →
      ∀ mc ∈ (kickoffGo oracle tasks outs tr cs).callList, mc.client = c := by
  intro tasks
  induction tasks with
  | nil =>
      intro outs tr cs _ hcs mc hmc
      simp only [kickoffGo, CrewResult.callList] at hmc
      exact hcs mc hmc
  | cons t ts ih =>
      intro outs tr cs hts hcs mc hmc
      have ht : t.agent.llm = c := hts t (List.mem_cons_self t ts)
      have hts' : ∀ t' ∈ ts, t'.agent.llm = c := fun t' h => hts t' (List.mem_cons_of_mem t h)
      have hcs' : ∀ mc' ∈ cs ++ [⟨t.agent.llm, agentExecPrompt t.agent (taskInput t outs)⟩],
          mc'.client = c := by
        intro mc' h'
        rcases List.mem_append.mp h' with h'' | h''
        · exact hcs mc' h''
        · simp only [List.mem_singleton] at h''
          subst h''
          exact ht
      simp only [kickoffGo] at hmc
      cases ho : oracle t.agent.llm (agentExecPrompt t.agent (taskInput t outs)) with
      | error e =>
          rw [ho] at hmc
          simp only [CrewResult.callList] at hmc
          exact hcs' mc hmc
      | ok out =>
          rw [ho] at hmc
          exact ih _ _ _ hts' hcs' mc hmc

/-- Every model call of a `langchain_blog_post` run uses the client passed
into the run. -/
lemma langchain_blog_post_calls_client (oracle : LLMOracle) (steps : List AgentStep)
    (topic audience tone : String) (word_count : Int) (keywords : String)
    (c : ChatOpenAI) :
    ∀ mc ∈ (langchain_blog_post oracle steps topic audience tone word_count keywords c).2,
      mc.client = c := by
  intro mc hmc
  rcases hr : runLoop (langchainExecutor oracle c)
      (langchainInput topic audience tone word_count keywords)
      (langchainExecutor oracle c).max_iterations steps ⟨[], []⟩ with ⟨res, st⟩
  have heq : (langchain_blog_post oracle steps topic audience tone word_count keywords c).2 =
      st.calls := by
    cases res <;> simp [langchain_blog_post, AgentExecutor.invoke, hr]
  rw [heq] at hmc
  refine runLoop_calls_client c (langchainExecutor oracle c)
    (langchainInput topic audience tone word_count keywords) rfl
    (langchainTools_calls_client oracle c)
    (langchainExecutor oracle c).max_iterations steps ⟨[], []⟩ ?_ mc ?_
  · intro mc' h'
    simp at h'
  · rw [hr]
    exact hmc

/-- Every model call of a `crewai_blog_post` run uses the client passed
into the run. -/
lemma crewai_blog_post_calls_client (oracle : LLMOracle) (topic audience tone : String)
    (word_count : Int) (keywords : String) (c : ChatOpenAI) :
    ∀ mc ∈ (crewai_blog_post oracle topic audience tone word_count keywords c).2,
      mc.client = c := by
  intro mc hmc
  have htasks : ∀ t ∈ (crewaiCrew topic audience tone word_count keywords c).tasks,
      t.agent.llm = c := by
    intro t ht
    simp only [crewaiCrew, List.mem_cons, List.not_mem_nil, or_false] at ht
    rcases ht with h | h | h <;> subst h <;> rfl
  have hroute : (crewai_blog_post oracle topic audience tone word_count keywords c).2 =
      (Crew.kickoff oracle (crewaiCrew topic audience tone word_count keywords c)).callList := by
    rcases hr : Crew.kickoff oracle (crewaiCrew topic audience tone word_count keywords c)
        with ⟨raw, tr, cs⟩ | ⟨e, tr, cs⟩ <;>
      simp [crewai_blog_post, hr, CrewResult.callList]
  rw [hroute] at hmc
  exact kickoffGo_calls_client oracle c
    (crewaiCrew topic audience tone word_count keywords c).tasks [] [] []
    htasks (by simp) mc hmc

/-- C10: the module-level default client `llm` (temperature 0.8, gpt-4)
never participates in a generation run: every model call attempted by the
button handler - with either orchestrator, through every stage function,
tool and agent - uses exactly the fresh per-run client built by `get_llm`
from the user-selected temperature and model name; in particular, whenever
that selection differs from the import-time default's configuration, no
call uses the default client. -/
theorem runs_use_only_per_run_client :
    ∀ (apiKey : Option String) (oracle : LLMOracle) (framework : Framework)
      (steps : List AgentStep) (model_name : String) (temperature : ℚ)
      (topic audience tone : String) (word_count : Int) (keywords : String),
      ((main_generate apiKey oracle framework steps model_name temperature topic audience
          tone word_count keywords).2.all
        (fun mc => mc.client == ChatOpenAI.mk temperature model_name)) = true ∧
      (llm ≠ ChatOpenAI.mk temperature model_name →
        ((main_generate apiKey oracle framework steps model_name temperature topic audience
            tone word_count keywords).2.all
          (fun mc => !(mc.client == llm))) = true) := by
  intro apiKey oracle framework steps model_name temperature topic audience tone
    word_count keywords
  have hmem : ∀ mc ∈ (main_generate apiKey oracle framework steps model_name temperature
      topic audience tone word_count keywords).2,
      mc.client = ChatOpenAI.mk temperature model_name := by
    cases apiKey with
    | none =>
        intro mc hmc
        simp [main_generate, get_llm, mkChatOpenAI] at hmc
    | some k =>
        cases framework with
        | LangChain =>
            exact langchain_blog_post_calls_client oracle steps topic audience tone
              word_count keywords ⟨temperature, model_name⟩
        | CrewAI =>
            exact crewai_blog_post_calls_client oracle topic audience tone
              word_count keywords ⟨temperature, model_name⟩
  constructor
  · rw [List.all_eq_true]
    intro mc hmc
    simpa using hmem mc hmc
  · intro hne
    rw [List.all_eq_true]
    intro mc hmc
    simp only [Bool.not_eq_true']
    rw [beq_eq_false_iff_ne]
    rw [hmem mc hmc]
    exact fun h => hne h.symm

/-- C10, witness: the theorem applied to a concrete CrewAI run with a
selected configuration differing from the module-level default. -/
theorem runs_use_only_per_run_client_witness :
    ((main_generate (some "sk-test") oracleOk Framework.CrewAI [] "gpt-3.5-turbo"
        ((1 : ℚ)/2) "t" "a" "tn" 500 "kw").2.all
      (fun mc => !(mc.client == llm))) = true :=
  (runs_use_only_per_run_client (some "sk-test") oracleOk Framework.CrewAI []
    "gpt-3.5-turbo" ((1 : ℚ)/2) "t" "a" "tn" 500 "kw").2
    (fun h => absurd (congrArg ChatOpenAI.model h) (by decide))
